import Mathlib

/-!
Shallow embedding of the TalkyBot pipeline coordinator.

The definitions below translate, as directly as Lean allows, the Python
classes `StateManager` (src/components/state_manager.py), `TTSThread`
(src/Thread/thread_tts.py), the VAD dispatch predicate
(src/Thread/thread_vad.py) and the STT final-result handler
(src/Thread/thread_stt.py).  Wall-clock reads (`time.time()`) become an
explicit `now : ℤ` argument (only the ordering of timestamps matters to
the code); `threading.Event` objects become `Bool`
fields; the registered state-change callbacks become an append-only
`callback_log` recording every notification `(old, new, reason)`; the
external chatbot/responder call in `on_final_result` is abstracted to the
Boolean "was the responder invoked".
-/

namespace TalkyBot

/-- The `SystemState` enum of `state_manager.py`. -/
inductive SystemState where
  | STANDBY
  | LISTENING
  | PROCESSING
  | SPEAKING
deriving DecidableEq, Repr

/-- The mutable fields of the Python `StateManager`, plus a log of the
callback notifications it has issued (`_notify_state_callbacks`). -/
structure StateManager where
  current_state : SystemState
  timeout_seconds : ℤ
  last_activity_time : ℤ
  wake_up_event : Bool
  stop_tts_event : Bool
  conversation_active : Bool
  callback_log : List (SystemState × SystemState × String)
deriving DecidableEq, Repr

/-- `StateManager.__init__`: initial state is `STANDBY`, all events clear. -/
def initStateManager (timeout now : ℤ) : StateManager :=
  { current_state := .STANDBY
    timeout_seconds := timeout
    last_activity_time := now
    wake_up_event := false
    stop_tts_event := false
    conversation_active := false
    callback_log := [] }

/-- The `sleep_keywords` list of `StateManager.__init__`. -/
def sleep_keywords : List String :=
  ["bye bye", "goodbye", "go to sleep", "sleep", "stop listening",
   "see you later", "goodnight", "shut down", "power off",
   "deactivate", "turn off"]

/-- `StateManager._is_valid_transition`: the fixed adjacency table. -/
def is_valid_transition (from_state to_state : SystemState) : Bool :=
  match from_state, to_state with
  | .STANDBY, .LISTENING => true
  | .LISTENING, .PROCESSING => true
  | .LISTENING, .SPEAKING => true
  | .LISTENING, .STANDBY => true
  | .PROCESSING, .SPEAKING => true
  | .PROCESSING, .LISTENING => true
  | .PROCESSING, .STANDBY => true
  | .SPEAKING, .LISTENING => true
  | .SPEAKING, .STANDBY => true
  | _, _ => false

/-- `StateManager._handle_state_entry`: mode-entry side effects. -/
def handle_state_entry (s : StateManager) (new_state : SystemState) : StateManager :=
  match new_state with
  | .STANDBY => { s with conversation_active := false, stop_tts_event := true }
  | .LISTENING => { s with stop_tts_event := false }
  | .SPEAKING => { s with stop_tts_event := false }
  | .PROCESSING => s

/-- `StateManager.transition_to`: validate against the adjacency table; on
success update the mode and the activity clock, run the entry side
effects, and notify callbacks (recorded in `callback_log`). -/
def transition_to (s : StateManager) (new_state : SystemState) (reason : String)
    (now : ℤ) : Bool × StateManager :=
  if is_valid_transition s.current_state new_state then
    let s1 := handle_state_entry
      { s with current_state := new_state, last_activity_time := now } new_state
    (true, { s1 with callback_log :=
        s1.callback_log ++ [(s.current_state, new_state, reason)] })
  else
    (false, s)

/-- `StateManager.wake_up`: attempt the edge to `LISTENING`; on success set
the wake and conversation events and clear the stop-TTS event. -/
def wake_up (s : StateManager) (reason : String) (now : ℤ) : StateManager :=
  if (transition_to s .LISTENING reason now).1 then
    { (transition_to s .LISTENING reason now).2 with
        wake_up_event := true, conversation_active := true, stop_tts_event := false }
  else
    (transition_to s .LISTENING reason now).2

/-- `StateManager.go_to_standby`: attempt the edge to `STANDBY`; on success
clear the conversation and wake events and set the stop-TTS event. -/
def go_to_standby (s : StateManager) (reason : String) (now : ℤ) : StateManager :=
  if (transition_to s .STANDBY reason now).1 then
    { (transition_to s .STANDBY reason now).2 with
        conversation_active := false, wake_up_event := false, stop_tts_event := true }
  else
    (transition_to s .STANDBY reason now).2

/-- `StateManager.start_processing`. -/
def start_processing (s : StateManager) (reason : String) (now : ℤ) : StateManager :=
  (transition_to s .PROCESSING reason now).2

/-- `StateManager.start_speaking`. -/
def start_speaking (s : StateManager) (reason : String) (now : ℤ) : StateManager :=
  (transition_to s .SPEAKING reason now).2

/-- `StateManager.interrupt_speaking`: only from `SPEAKING`, set the
stop-TTS event and transition to `LISTENING`. -/
def interrupt_speaking (s : StateManager) (reason : String) (now : ℤ) : StateManager :=
  if s.current_state = .SPEAKING then
    (transition_to { s with stop_tts_event := true } .LISTENING reason now).2
  else
    s

/-- `StateManager.update_activity`. -/
def update_activity (s : StateManager) (now : ℤ) : StateManager :=
  { s with last_activity_time := now }

/-- `StateManager.check_timeout`: in `STANDBY` return false; otherwise force
`go_to_standby` and return true exactly when the elapsed idle time strictly
exceeds the configured timeout. -/
def check_timeout (s : StateManager) (now : ℤ) : Bool × StateManager :=
  if s.current_state = .STANDBY then
    (false, s)
  else if s.timeout_seconds < now - s.last_activity_time then
    (true, go_to_standby s "Timeout" now)
  else
    (false, s)

/-- `leadsList needle hay` is true when `needle` is a leading segment of
`hay` (helper for the substring test below). -/
def leadsList (needle hay : List Char) : Bool :=
  match needle, hay with
  | [], _ => true
  | _ :: _, [] => false
  | a :: as, b :: bs => a == b && leadsList as bs

/-- `occursIn needle hay` is true when `needle` occurs contiguously
somewhere in `hay`. -/
def occursIn (needle : List Char) : List Char → Bool
  | [] => leadsList needle []
  | b :: bs => leadsList needle (b :: bs) || occursIn needle bs

/-- Python's `needle in hay` on strings: contiguous substring test. -/
def strContains (hay needle : String) : Bool :=
  occursIn needle.toList hay.toList

/-- Python `str.lower()` (ASCII case mapping, as in the keywords used here),
implemented structurally over the character list. -/
def py_lower (s : String) : String :=
  String.mk (s.toList.map Char.toLower)

/-- Python `str.strip()`: drop leading and trailing whitespace. -/
def py_strip (s : String) : String :=
  String.mk (((s.toList.dropWhile Char.isWhitespace).reverse.dropWhile
    Char.isWhitespace).reverse)

/-- `StateManager.check_sleep_keywords`: lowercase and strip the text, then
scan the keyword list for the first keyword occurring as a substring; on a
hit force `go_to_standby` and return true. -/
def check_sleep_keywords (s : StateManager) (text : String) (now : ℤ) :
    Bool × StateManager :=
  let text_lower := py_strip (py_lower text)
  match sleep_keywords.find? (fun k => strContains text_lower k) with
  | some k => (true, go_to_standby s ("Sleep keyword detected: " ++ k) now)
  | none => (false, s)

/-- `StateManager.is_active`: any mode other than `STANDBY`. -/
def is_active (s : StateManager) : Bool :=
  s.current_state != .STANDBY

/-- `STTConversationThread.on_final_result`: empty text is ignored; a sleep
keyword suppresses the response and forces standby; otherwise the activity
clock is updated and the responder is invoked.  The returned `Bool` is
"the responder (chatbot + TTS callback) was invoked". -/
def on_final_result (s : StateManager) (text : String) (now : ℤ) :
    Bool × StateManager :=
  if py_strip text = "" then
    (false, s)
  else
    let r := check_sleep_keywords s text now
    if r.1 then
      (false, r.2)
    else
      (true, update_activity r.2 now)

/-- `VADThread._should_send_audio`: send the frame to the STT queue only
while speech is detected, a queue is attached, and (when a state manager is
attached) the system is in an active mode. -/
def should_send_audio (is_speaking : Bool) (has_queue : Bool)
    (sm : Option StateManager) : Bool :=
  if !is_speaking || !has_queue then
    false
  else
    match sm with
    | some m => is_active m
    | none => true

/-- The mutable fields of `TTSThread` (src/Thread/thread_tts.py):
`text_queue` as a FIFO list, the bounded capacity, the `is_speaking` flag,
and the interrupt/playing coordination events. -/
structure TTSThread where
  text_queue : List String
  max_queue_size : Nat
  is_speaking : Bool
  interrupt_event : Bool
  playing_event : Bool
deriving DecidableEq, Repr

/-- `TTSThread.__init__` with the default `max_queue_size=10`. -/
def initTTSThread : TTSThread :=
  { text_queue := []
    max_queue_size := 10
    is_speaking := false
    interrupt_event := false
    playing_event := false }

/-- `TTSThread.interrupt_current_speech`: set the interrupt event (process
termination of the playback subprocess is outside the embedding). -/
def interrupt_current_speech (t : TTSThread) : TTSThread :=
  { t with interrupt_event := true }

/-- `TTSThread.speak_text`: reject blank text and inactive conversations;
with `priority` first drain the queue and interrupt any current speech; the
final `put` succeeds exactly when the queue is below capacity. -/
def speak_text (t : TTSThread) (sm : Option StateManager) (text : String)
    (priority : Bool) : Bool × TTSThread :=
  if py_strip text = "" then
    (false, t)
  else if (match sm with
           | some m => !m.conversation_active
           | none => false) then
    (false, t)
  else
    let t1 :=
      if priority then
        let t0 := { t with text_queue := [] }
        if t.is_speaking then interrupt_current_speech t0 else t0
      else t
    if t1.text_queue.length < t1.max_queue_size then
      (true, { t1 with text_queue := t1.text_queue ++ [py_strip text] })
    else
      (false, t1)

/-- The whole coordinated system: the shared state manager, the playback
worker's state, and the list of texts the playback worker has spoken. -/
structure Sys where
  sm : StateManager
  tts : TTSThread
  spoken : List String
deriving DecidableEq, Repr

/-- One iteration of `TTSThread.run`'s loop: skip while the conversation is
inactive; otherwise dequeue one text and run
`_speak_with_interrupt_support` to completion (set the playing event,
transition to `SPEAKING`, emit the audio — recorded in `spoken` — then
transition back to `LISTENING` and clear the playing event). -/
def tts_tick (sys : Sys) (now : ℤ) : Sys :=
  if !sys.sm.conversation_active then
    sys
  else
    match sys.tts.text_queue with
    | [] => sys
    | text :: rest =>
      let sm1 := (transition_to sys.sm .SPEAKING "TTS started" now).2
      let sm2 := (transition_to sm1 .LISTENING "TTS completed" now).2
      let t1 := { sys.tts with
        text_queue := rest
        is_speaking := false
        playing_event := false }
      { sm := sm2, tts := t1, spoken := sys.spoken ++ [text] }

/-- The operations the threads of the repository perform against the shared
state: every public `StateManager` entry point, the STT final-result
handler, the TTS enqueue, and one playback-loop iteration. -/
inductive Op where
  | wakeUp (reason : String) (now : ℤ)
  | goToStandby (reason : String) (now : ℤ)
  | startProcessing (reason : String) (now : ℤ)
  | startSpeaking (reason : String) (now : ℤ)
  | interruptSpeaking (reason : String) (now : ℤ)
  | transitionTo (target : SystemState) (reason : String) (now : ℤ)
  | checkTimeout (now : ℤ)
  | finalResult (text : String) (now : ℤ)
  | speakText (text : String) (priority : Bool)
  | ttsTick (now : ℤ)
deriving Repr

/-- Interleaving semantics: each operation runs atomically against the
shared state (the Python code serializes them through `_state_lock`). -/
def step (sys : Sys) : Op → Sys
  | .wakeUp r now => { sys with sm := wake_up sys.sm r now }
  | .goToStandby r now => { sys with sm := go_to_standby sys.sm r now }
  | .startProcessing r now => { sys with sm := start_processing sys.sm r now }
  | .startSpeaking r now => { sys with sm := start_speaking sys.sm r now }
  | .interruptSpeaking r now => { sys with sm := interrupt_speaking sys.sm r now }
  | .transitionTo t r now => { sys with sm := (transition_to sys.sm t r now).2 }
  | .checkTimeout now => { sys with sm := (check_timeout sys.sm now).2 }
  | .finalResult text now => { sys with sm := (on_final_result sys.sm text now).2 }
  | .speakText text p => { sys with tts := (speak_text sys.tts (some sys.sm) text p).2 }
  | .ttsTick now => tts_tick sys now

/-- The system as built in `app.py`: fresh state manager (default timeout
15 s) and a fresh TTS thread. -/
def initSys : Sys :=
  { sm := initStateManager 15 0, tts := initTTSThread, spoken := [] }

/-- Run a sequence of operations from startup. -/
def run (ops : List Op) : Sys :=
  ops.foldl step initSys

/-- Split a character list into its maximal whitespace-free words
(`cur` accumulates the current word, reversed). -/
def wordsAux (cur : List Char) : List Char → List (List Char)
  | [] => if cur.isEmpty then [] else [cur.reverse]
  | c :: cs =>
    if Char.isWhitespace c then
      if cur.isEmpty then wordsAux [] cs else cur.reverse :: wordsAux [] cs
    else
      wordsAux (c :: cur) cs

/-- The whitespace-separated words of a string. -/
def wordsOf (s : String) : List (List Char) :=
  wordsAux [] s.toList

/-- `leadsWords ks ws`: the word list `ks` is a leading segment of `ws`. -/
def leadsWords : List (List Char) → List (List Char) → Bool
  | [], _ => true
  | _ :: _, [] => false
  | a :: as, b :: bs => a == b && leadsWords as bs

/-- Modelled from the spec: §4.4 requires the sleep-phrase check to be a
"case-insensitive, whole-word match".  A phrase matches when its
space-separated words occur as a consecutive block among the
whitespace-separated words of the lowercased transcript.  This definition
follows the spec's words and exists only to be compared with the code's
`check_sleep_keywords`. -/
def specWholeWordSleepMatch (text : String) : Bool :=
  let ws := wordsOf (py_lower text)
  sleep_keywords.any (fun k =>
    let ks := wordsOf k
    (List.range (ws.length + 1)).any (fun i => leadsWords ks (ws.drop i)))

/-- Invariant: every notification in the callback log records an edge of
the adjacency table. -/
def logged_edges_valid (s : StateManager) : Prop :=
  (s.callback_log.all fun e => is_valid_transition e.1 e.2.1) = true

/-- Invariant: whenever the mode is `STANDBY`, the conversation flag is
clear. -/
def standby_conv_clear (s : StateManager) : Prop :=
  s.current_state = .STANDBY → s.conversation_active = false

/-- A concrete reachable `LISTENING` state: the default manager after a
wake-word detection. -/
def listeningState : StateManager :=
  wake_up (initStateManager 15 0) "wake word" 1

/-- A concrete reachable `SPEAKING` state: wake up, then start speaking. -/
def speakingState : StateManager :=
  start_speaking listeningState "Response ready" 2

/-- A TTS state whose queue is at its capacity of 10 while speaking. -/
def fullTTS : TTSThread :=
  { initTTSThread with text_queue := List.replicate 10 "queued", is_speaking := true }

/-- A run that queues a response, goes to standby with it still queued,
wakes up again, and lets the playback loop take one iteration. -/
def staleTrace : List Op :=
  [.wakeUp "wake" 1, .speakText "leftover" false, .goToStandby "sleep" 2,
   .wakeUp "wake again" 3, .ttsTick 4]

/-! ### Plumbing lemmas about `transition_to` -/

lemma hse_current_state (s : StateManager) (n : SystemState) :
    (handle_state_entry s n).current_state = s.current_state := by
  cases n <;> rfl

lemma hse_callback_log (s : StateManager) (n : SystemState) :
    (handle_state_entry s n).callback_log = s.callback_log := by
  cases n <;> rfl

lemma transition_to_fst (s : StateManager) (tgt : SystemState) (r : String) (now : ℤ) :
    (transition_to s tgt r now).1 = is_valid_transition s.current_state tgt := by
  cases h : is_valid_transition s.current_state tgt <;> simp [transition_to, h]

lemma transition_to_of_invalid {s : StateManager} {tgt : SystemState} (r : String)
    (now : ℤ) (h : is_valid_transition s.current_state tgt = false) :
    transition_to s tgt r now = (false, s) := by
  simp [transition_to, h]

lemma transition_to_current_of_valid {s : StateManager} {tgt : SystemState}
    (r : String) (now : ℤ) (h : is_valid_transition s.current_state tgt = true) :
    (transition_to s tgt r now).2.current_state = tgt := by
  simp [transition_to, h, hse_current_state]

lemma transition_to_log (s : StateManager) (tgt : SystemState) (r : String) (now : ℤ) :
    (transition_to s tgt r now).2.callback_log =
      if is_valid_transition s.current_state tgt then
        s.callback_log ++ [(s.current_state, tgt, r)]
      else
        s.callback_log := by
  cases h : is_valid_transition s.current_state tgt <;>
    simp [transition_to, h, hse_callback_log]

/-- Every callback notification a single `transition_to` adds records a
table edge, so `callback_log` validity is preserved. -/
lemma log_ok_transition {s : StateManager} (tgt : SystemState) (r : String) (now : ℤ)
    (hl : logged_edges_valid s) : logged_edges_valid (transition_to s tgt r now).2 := by
  unfold logged_edges_valid at hl ⊢
  rw [transition_to_log]
  split
  · next h => simp [List.all_append, hl, h]
  · exact hl

/-- `transition_to` preserves "in STANDBY the conversation flag is clear". -/
lemma conv_ok_transition {s : StateManager} (tgt : SystemState) (r : String) (now : ℤ)
    (hs : standby_conv_clear s) : standby_conv_clear (transition_to s tgt r now).2 := by
  unfold standby_conv_clear at hs ⊢
  cases h : is_valid_transition s.current_state tgt
  · simpa [transition_to, h] using hs
  · cases tgt <;> simp [transition_to, h, handle_state_entry]

lemma log_ok_wake_up {s : StateManager} (r : String) (now : ℤ)
    (hl : logged_edges_valid s) : logged_edges_valid (wake_up s r now) := by
  unfold wake_up
  split
  · exact log_ok_transition _ r now hl
  · exact log_ok_transition _ r now hl

lemma log_ok_go_to_standby {s : StateManager} (r : String) (now : ℤ)
    (hl : logged_edges_valid s) : logged_edges_valid (go_to_standby s r now) := by
  unfold go_to_standby
  split
  · exact log_ok_transition _ r now hl
  · exact log_ok_transition _ r now hl

lemma log_ok_interrupt_speaking {s : StateManager} (r : String) (now : ℤ)
    (hl : logged_edges_valid s) : logged_edges_valid (interrupt_speaking s r now) := by
  unfold interrupt_speaking
  split
  · exact log_ok_transition _ r now hl
  · exact hl

lemma log_ok_check_timeout {s : StateManager} (now : ℤ)
    (hl : logged_edges_valid s) : logged_edges_valid (check_timeout s now).2 := by
  unfold check_timeout
  split
  · exact hl
  · split
    · exact log_ok_go_to_standby _ now hl
    · exact hl

lemma log_ok_check_sleep_keywords {s : StateManager} (text : String) (now : ℤ)
    (hl : logged_edges_valid s) :
    logged_edges_valid (check_sleep_keywords s text now).2 := by
  unfold check_sleep_keywords
  rcases hf : sleep_keywords.find?
      (fun k => strContains (py_strip (py_lower text)) k) with _ | k
  · simpa [hf] using hl
  · simpa [hf] using log_ok_go_to_standby _ now hl

lemma log_ok_on_final_result {s : StateManager} (text : String) (now : ℤ)
    (hl : logged_edges_valid s) :
    logged_edges_valid (on_final_result s text now).2 := by
  unfold on_final_result
  split
  · exact hl
  · cases hr : (check_sleep_keywords s text now).1 <;>
      simpa [hr] using log_ok_check_sleep_keywords text now hl

lemma conv_ok_wake_up {s : StateManager} (r : String) (now : ℤ)
    (hs : standby_conv_clear s) : standby_conv_clear (wake_up s r now) := by
  unfold wake_up
  cases h : (transition_to s .LISTENING r now).1
  · simpa [h] using conv_ok_transition _ r now hs
  · have h2 : is_valid_transition s.current_state SystemState.LISTENING = true := by
      rwa [transition_to_fst] at h
    simp only [h, if_true]
    unfold standby_conv_clear
    intro hc
    change (transition_to s SystemState.LISTENING r now).2.current_state =
      SystemState.STANDBY at hc
    rw [transition_to_current_of_valid r now h2] at hc
    cases hc

lemma conv_ok_go_to_standby {s : StateManager} (r : String) (now : ℤ)
    (hs : standby_conv_clear s) : standby_conv_clear (go_to_standby s r now) := by
  unfold go_to_standby
  cases h : (transition_to s .STANDBY r now).1
  · simpa [h] using conv_ok_transition _ r now hs
  · simp only [if_pos rfl]
    exact fun _ => rfl

lemma conv_ok_interrupt_speaking {s : StateManager} (r : String) (now : ℤ)
    (hs : standby_conv_clear s) : standby_conv_clear (interrupt_speaking s r now) := by
  unfold interrupt_speaking
  split
  · refine conv_ok_transition _ r now ?_
    exact hs
  · exact hs

lemma conv_ok_check_timeout {s : StateManager} (now : ℤ)
    (hs : standby_conv_clear s) : standby_conv_clear (check_timeout s now).2 := by
  unfold check_timeout
  split
  · exact hs
  · split
    · exact conv_ok_go_to_standby _ now hs
    · exact hs

lemma conv_ok_check_sleep_keywords {s : StateManager} (text : String) (now : ℤ)
    (hs : standby_conv_clear s) :
    standby_conv_clear (check_sleep_keywords s text now).2 := by
  unfold check_sleep_keywords
  rcases hf : sleep_keywords.find?
      (fun k => strContains (py_strip (py_lower text)) k) with _ | k
  · simpa [hf] using hs
  · simpa [hf] using conv_ok_go_to_standby _ now hs

lemma conv_ok_on_final_result {s : StateManager} (text : String) (now : ℤ)
    (hs : standby_conv_clear s) :
    standby_conv_clear (on_final_result s text now).2 := by
  unfold on_final_result
  split
  · exact hs
  · cases hr : (check_sleep_keywords s text now).1 <;>
      simpa [hr] using conv_ok_check_sleep_keywords text now hs

/-! ### The two trace invariants, preserved by every operation -/

/-- One `step` keeps every logged notification a table edge. -/
lemma log_ok_step (sys : Sys) (op : Op) (hl : logged_edges_valid sys.sm) :
    logged_edges_valid (step sys op).sm := by
  cases op with
  | wakeUp r now => exact log_ok_wake_up r now hl
  | goToStandby r now => exact log_ok_go_to_standby r now hl
  | startProcessing r now => exact log_ok_transition _ r now hl
  | startSpeaking r now => exact log_ok_transition _ r now hl
  | interruptSpeaking r now => exact log_ok_interrupt_speaking r now hl
  | transitionTo tgt r now => exact log_ok_transition tgt r now hl
  | checkTimeout now => exact log_ok_check_timeout now hl
  | finalResult text now => exact log_ok_on_final_result text now hl
  | speakText text p => exact hl
  | ttsTick now =>
    show logged_edges_valid (tts_tick sys now).sm
    unfold tts_tick
    split
    · exact hl
    · split
      · exact hl
      · exact log_ok_transition _ "TTS completed" now
          (log_ok_transition _ "TTS started" now hl)

/-- One `step` keeps the conversation flag clear whenever the mode is
`STANDBY`. -/
lemma conv_ok_step (sys : Sys) (op : Op) (hs : standby_conv_clear sys.sm) :
    standby_conv_clear (step sys op).sm := by
  cases op with
  | wakeUp r now => exact conv_ok_wake_up r now hs
  | goToStandby r now => exact conv_ok_go_to_standby r now hs
  | startProcessing r now => exact conv_ok_transition _ r now hs
  | startSpeaking r now => exact conv_ok_transition _ r now hs
  | interruptSpeaking r now => exact conv_ok_interrupt_speaking r now hs
  | transitionTo tgt r now => exact conv_ok_transition tgt r now hs
  | checkTimeout now => exact conv_ok_check_timeout now hs
  | finalResult text now => exact conv_ok_on_final_result text now hs
  | speakText text p => exact hs
  | ttsTick now =>
    show standby_conv_clear (tts_tick sys now).sm
    unfold tts_tick
    split
    · exact hs
    · split
      · exact hs
      · exact conv_ok_transition _ "TTS completed" now
          (conv_ok_transition _ "TTS started" now hs)

/-- Both invariants hold of every reachable system state. -/
lemma run_invariants (ops : List Op) :
    logged_edges_valid (run ops).sm ∧ standby_conv_clear (run ops).sm := by
  suffices h : ∀ (sys : Sys), logged_edges_valid sys.sm → standby_conv_clear sys.sm →
      logged_edges_valid (ops.foldl step sys).sm ∧
        standby_conv_clear (ops.foldl step sys).sm by
    exact h initSys rfl (fun _ => rfl)
  induction ops with
  | nil => exact fun sys hl hs => ⟨hl, hs⟩
  | cons op rest ih =>
    intro sys hl hs
    exact ih (step sys op) (log_ok_step sys op hl) (conv_ok_step sys op hs)

/-! ### Success and no-op shapes of the convenience transitions -/

lemma valid_to_standby {s : StateManager} (h : s.current_state ≠ .STANDBY) :
    is_valid_transition s.current_state .STANDBY = true := by
  cases hc : s.current_state
  · exact absurd hc h
  all_goals rfl

lemma valid_to_listening {s : StateManager} (h : s.current_state ≠ .LISTENING) :
    is_valid_transition s.current_state .LISTENING = true := by
  cases hc : s.current_state
  · rfl
  · exact absurd hc h
  all_goals rfl

lemma go_to_standby_noop {s : StateManager} (h : s.current_state = .STANDBY)
    (r : String) (now : ℤ) : go_to_standby s r now = s := by
  have hv : is_valid_transition s.current_state .STANDBY = false := by rw [h]; rfl
  unfold go_to_standby
  rw [transition_to_of_invalid r now hv]
  rfl

lemma go_to_standby_success {s : StateManager} (h : s.current_state ≠ .STANDBY)
    (r : String) (now : ℤ) :
    (go_to_standby s r now).current_state = .STANDBY ∧
    (go_to_standby s r now).conversation_active = false ∧
    (go_to_standby s r now).wake_up_event = false ∧
    (go_to_standby s r now).stop_tts_event = true := by
  have hv := valid_to_standby h
  unfold go_to_standby
  simp only [transition_to_fst, hv, if_true]
  refine ⟨?_, trivial, trivial, trivial⟩
  change (transition_to s SystemState.STANDBY r now).2.current_state = SystemState.STANDBY
  exact transition_to_current_of_valid r now hv

lemma go_to_standby_current (s : StateManager) (r : String) (now : ℤ) :
    (go_to_standby s r now).current_state = .STANDBY := by
  by_cases h : s.current_state = .STANDBY
  · rw [go_to_standby_noop h r now]; exact h
  · exact (go_to_standby_success h r now).1

lemma list_any_eq_find_isSome {α : Type} (p : α → Bool) :
    ∀ l : List α, l.any p = (l.find? p).isSome := by
  intro l
  induction l with
  | nil => rfl
  | cons a t ih => cases h : p a <;> simp [List.any_cons, List.find?_cons, h, ih]

/-! ### Claim theorems -/

/-- C1: for every sequence of operations starting from the initial
`STANDBY` state — including calls made through `wake_up`, `go_to_standby`,
`start_processing`, `start_speaking`, `interrupt_speaking`, the timeout
poll, the sleep-keyword path and the playback loop — every realized
transition (each recorded as a callback notification) is an edge of the
adjacency table `STANDBY→{LISTENING}`, `LISTENING→{PROCESSING, SPEAKING,
STANDBY}`, `PROCESSING→{SPEAKING, LISTENING, STANDBY}`,
`SPEAKING→{LISTENING, STANDBY}`; and `transition_to` returns `true`
exactly when its `(from, to)` pair is one of these edges. -/
theorem realized_edges_in_adjacency_table :
    (∀ ops : List Op,
      ((run ops).sm.callback_log.all fun e => is_valid_transition e.1 e.2.1) = true) ∧
    (∀ (s : StateManager) (tgt : SystemState) (r : String) (now : ℤ),
      (transition_to s tgt r now).1 = is_valid_transition s.current_state tgt) :=
  ⟨fun ops => (run_invariants ops).1, transition_to_fst⟩

/-- C5: an invalid transition attempt returns `false` and is a complete
no-op — the mode, the activity timestamp, the `conversation_active`,
`wake_up_event` and `stop_tts_event` flags and the callback log (hence no
callback invocation) are all unchanged; being a total Lean function, it
raises nothing. -/
theorem invalid_transition_is_noop :
    ∀ (s : StateManager) (tgt : SystemState) (r : String) (now : ℤ),
      is_valid_transition s.current_state tgt = false →
      transition_to s tgt r now = (false, s) :=
  fun _ _ r now h => transition_to_of_invalid r now h

/-- Witness for C5 at a concrete input: from the initial `STANDBY` state,
`SPEAKING` is not a permitted target. -/
theorem invalid_transition_is_noop_witness :
    is_valid_transition (initStateManager 15 0).current_state .SPEAKING = false ∧
    transition_to (initStateManager 15 0) .SPEAKING "no" 3 =
      (false, initStateManager 15 0) :=
  ⟨by decide, invalid_transition_is_noop (initStateManager 15 0) .SPEAKING "no" 3 (by decide)⟩

/-- C4: `check_timeout` returns `false` and leaves the state untouched when
the mode is `STANDBY` or the elapsed idle time is at most the configured
timeout; from a non-`STANDBY` mode with elapsed idle time strictly greater
than the timeout it forces `go_to_standby` and returns `true`. -/
theorem check_timeout_behavior :
    ∀ (s : StateManager) (now : ℤ),
      ((s.current_state = .STANDBY ∨
          now - s.last_activity_time ≤ s.timeout_seconds) →
        check_timeout s now = (false, s)) ∧
      ((s.current_state ≠ .STANDBY ∧
          s.timeout_seconds < now - s.last_activity_time) →
        (check_timeout s now).1 = true ∧
        (check_timeout s now).2.current_state = .STANDBY) := by
  intro s now
  constructor
  · rintro (h | h)
    · simp [check_timeout, h]
    · unfold check_timeout
      split
      · rfl
      · rw [if_neg (not_lt.mpr h)]
  · rintro ⟨h1, h2⟩
    unfold check_timeout
    rw [if_neg h1, if_pos h2]
    exact ⟨rfl, go_to_standby_current s "Timeout" now⟩

/-- Witness for C4 at concrete inputs: a fresh `STANDBY` manager never
times out; the reachable `LISTENING` state at idle age 99 > 15 does. -/
theorem check_timeout_behavior_witness :
    check_timeout (initStateManager 15 0) 10 = (false, initStateManager 15 0) ∧
    (check_timeout listeningState 100).1 = true ∧
    (check_timeout listeningState 100).2.current_state = .STANDBY := by
  refine ⟨(check_timeout_behavior (initStateManager 15 0) 10).1 (Or.inl rfl), ?_, ?_⟩
  · exact ((check_timeout_behavior listeningState 100).2 (by decide)).1
  · exact ((check_timeout_behavior listeningState 100).2 (by decide)).2

/-- C9: `go_to_standby` is idempotent — from any active mode the first call
reaches `STANDBY` with `conversation_active` cleared and `stop_tts_event`
set; an immediately repeated call is a no-op (the state, side-effect flags
included, is returned unchanged) and its underlying transition attempt
reports `false`. -/
theorem go_to_standby_idempotent :
    ∀ (s : StateManager) (r r2 : String) (now now2 : ℤ),
      s.current_state ≠ .STANDBY →
      (go_to_standby s r now).current_state = .STANDBY ∧
      (go_to_standby s r now).conversation_active = false ∧
      (go_to_standby s r now).stop_tts_event = true ∧
      go_to_standby (go_to_standby s r now) r2 now2 = go_to_standby s r now ∧
      (transition_to (go_to_standby s r now) .STANDBY r2 now2).1 = false := by
  intro s r r2 now now2 h
  obtain ⟨hcur, hconv, _, hstop⟩ := go_to_standby_success h r now
  refine ⟨hcur, hconv, hstop, go_to_standby_noop hcur r2 now2, ?_⟩
  rw [transition_to_fst, hcur]
  rfl

/-- Witness for C9 at the reachable `LISTENING` state. -/
theorem go_to_standby_idempotent_witness :
    (go_to_standby listeningState "sleep" 5).current_state = .STANDBY ∧
    (go_to_standby listeningState "sleep" 5).conversation_active = false ∧
    (go_to_standby listeningState "sleep" 5).stop_tts_event = true ∧
    go_to_standby (go_to_standby listeningState "sleep" 5) "again" 6 =
      go_to_standby listeningState "sleep" 5 ∧
    (transition_to (go_to_standby listeningState "sleep" 5) .STANDBY "again" 6).1 =
      false :=
  go_to_standby_idempotent listeningState "sleep" "again" 5 6 (by decide)

/-- C10: `wake_up` is not restricted to `STANDBY`: from every mode other
than `LISTENING` (so also `PROCESSING` and `SPEAKING`) it succeeds — the
mode becomes `LISTENING`, `wake_up_event` and `conversation_active` are
set, `stop_tts_event` is cleared, and the state genuinely changes; only
from `LISTENING` (the one mode with no edge to `LISTENING`) is it a
complete no-op. -/
theorem wake_up_from_any_mode :
    ∀ (s : StateManager) (r : String) (now : ℤ),
      (s.current_state = .LISTENING → wake_up s r now = s) ∧
      (s.current_state ≠ .LISTENING →
        (wake_up s r now).current_state = .LISTENING ∧
        (wake_up s r now).wake_up_event = true ∧
        (wake_up s r now).conversation_active = true ∧
        (wake_up s r now).stop_tts_event = false ∧
        wake_up s r now ≠ s) := by
  intro s r now
  constructor
  · intro h
    have hv : is_valid_transition s.current_state .LISTENING = false := by rw [h]; rfl
    unfold wake_up
    rw [transition_to_of_invalid r now hv]
    rfl
  · intro h
    have hv := valid_to_listening h
    unfold wake_up
    simp only [transition_to_fst, hv, if_true]
    have hcur : (transition_to s SystemState.LISTENING r now).2.current_state =
        SystemState.LISTENING := transition_to_current_of_valid r now hv
    refine ⟨hcur, trivial, trivial, trivial, ?_⟩
    intro heq
    have := congrArg StateManager.current_state heq
    rw [hcur] at this
    exact h this.symm

/-- Witness for C10: a no-op from the reachable `LISTENING` state, and a
successful wake from the reachable `SPEAKING` state. -/
theorem wake_up_from_any_mode_witness :
    wake_up listeningState "again" 7 = listeningState ∧
    (wake_up speakingState "barge" 7).current_state = .LISTENING :=
  ⟨(wake_up_from_any_mode listeningState "again" 7).1 (by decide),
   ((wake_up_from_any_mode speakingState "barge" 7).2 (by decide)).1⟩

/-- C2 fails on the code: from the reachable `SPEAKING` state the barge-in
path `interrupt_speaking` does reach `LISTENING`, but the `stop_tts_event`
(the `InterruptSignal`) it sets is cleared again within the same call by
the `LISTENING` entry side effect, so at the end of the tick the flag the
Playback Worker polls is unset and its chunk loop is never told to exit. -/
theorem interrupt_speaking_leaves_signal_cleared :
    speakingState.current_state = .SPEAKING ∧
    (interrupt_speaking speakingState "User interrupted" 3).current_state =
      .LISTENING ∧
    (interrupt_speaking speakingState "User interrupted" 3).stop_tts_event =
      false := by
  decide

/-- Counterexample to C3: the transcript "sleepy" contains the sleep phrase
"sleep" only as a proper substring, never as a whole word (the spec-side
whole-word matcher rejects it), yet the code matches it, moves to `STANDBY`
and suppresses the responder — so the check is not whole-word. -/
theorem sleep_check_not_whole_word :
    specWholeWordSleepMatch "sleepy" = false ∧
    (check_sleep_keywords listeningState "sleepy" 2).1 = true ∧
    (check_sleep_keywords listeningState "sleepy" 2).2.current_state = .STANDBY ∧
    (on_final_result listeningState "sleepy" 2).1 = false := by
  decide

/-- For non-blank text, `on_final_result` reduces to a case split on the
sleep-keyword check. -/
lemma on_final_result_eq (s : StateManager) (text : String) (now : ℤ)
    (hne : py_strip text ≠ "") :
    on_final_result s text now =
      if (check_sleep_keywords s text now).1 then
        (false, (check_sleep_keywords s text now).2)
      else
        (true, update_activity (check_sleep_keywords s text now).2 now) := by
  unfold on_final_result
  rw [if_neg hne]

/-- C3 amended: the sleep-phrase check lowercases and strips the final
transcript and matches each phrase as a contiguous *substring* (not
whole-word).  Whenever the lowercased transcript contains a sleep phrase
as a substring, the mode becomes `STANDBY` and no responder call occurs;
when it contains none, the check is a no-op and (for non-blank text) the
responder is invoked. -/
theorem sleep_check_substring_semantics :
    ∀ (s : StateManager) (text : String) (now : ℤ),
      (py_strip text ≠ "" →
        (sleep_keywords.any fun k =>
          strContains (py_strip (py_lower text)) k) = true →
        (on_final_result s text now).1 = false ∧
        (on_final_result s text now).2.current_state = .STANDBY) ∧
      ((sleep_keywords.any fun k =>
          strContains (py_strip (py_lower text)) k) = false →
        check_sleep_keywords s text now = (false, s)) ∧
      (py_strip text ≠ "" →
        (sleep_keywords.any fun k =>
          strContains (py_strip (py_lower text)) k) = false →
        (on_final_result s text now).1 = true) := by
  intro s text now
  have hb := list_any_eq_find_isSome
    (fun k => strContains (py_strip (py_lower text)) k) sleep_keywords
  refine ⟨?_, ?_, ?_⟩
  · intro hne hany
    rw [hb] at hany
    rcases hf : sleep_keywords.find?
        (fun k => strContains (py_strip (py_lower text)) k) with _ | k
    · rw [hf] at hany
      simp at hany
    · have hcs : check_sleep_keywords s text now =
          (true, go_to_standby s ("Sleep keyword detected: " ++ k) now) := by
        unfold check_sleep_keywords
        simp only [hf]
      rw [on_final_result_eq s text now hne, hcs]
      exact ⟨rfl, go_to_standby_current s _ now⟩
  · intro hany
    rw [hb] at hany
    rcases hf : sleep_keywords.find?
        (fun k => strContains (py_strip (py_lower text)) k) with _ | k
    · unfold check_sleep_keywords
      simp only [hf]
    · rw [hf] at hany
      simp at hany
  · intro hne hany
    rw [hb] at hany
    rcases hf : sleep_keywords.find?
        (fun k => strContains (py_strip (py_lower text)) k) with _ | k
    · have hcs : check_sleep_keywords s text now = (false, s) := by
        unfold check_sleep_keywords
        simp only [hf]
      rw [on_final_result_eq s text now hne, hcs]
      rfl
    · rw [hf] at hany
      simp at hany

/-- Witness for the amended C3: a mixed-case whole-phrase transcript
matches (case-insensitivity) and suppresses the responder, while an
ordinary transcript reaches the responder. -/
theorem sleep_check_substring_semantics_witness :
    (on_final_result listeningState "GoodNight" 2).1 = false ∧
    (on_final_result listeningState "GoodNight" 2).2.current_state = .STANDBY ∧
    (on_final_result listeningState "hello there" 2).1 = true := by
  refine ⟨?_, ?_, ?_⟩
  · exact ((sleep_check_substring_semantics listeningState "GoodNight" 2).1
      (by decide) (by decide)).1
  · exact ((sleep_check_substring_semantics listeningState "GoodNight" 2).1
      (by decide) (by decide)).2
  · exact (sleep_check_substring_semantics listeningState "hello there" 2).2.2
      (by decide) (by decide)

/-- Counterexample to C6: in the reachable `SPEAKING` state a speech frame
is *sent to the Transcription Worker's queue* (`_should_send_audio` is
true), whereas the claim says that outside `STANDBY` and `LISTENING` the
frame is dropped and not enqueued to the transcriber. -/
theorem speaking_frames_sent_to_transcriber :
    speakingState.current_state = .SPEAKING ∧
    should_send_audio true true (some speakingState) = true := by
  decide

/-- C6 amended: while the VAD reports speech and an STT queue is attached,
the VAD thread enqueues the frame to the Transcription Worker exactly when
the mode is any active (non-`STANDBY`) mode — `LISTENING`, `PROCESSING`
*or* `SPEAKING`; in `STANDBY` the frame is not enqueued anywhere by this
dispatch (wake-word detection runs on its own audio capture). -/
theorem should_send_audio_iff_active :
    ∀ (sp hq : Bool) (s : StateManager),
      should_send_audio sp hq (some s) = (sp && hq && is_active s) := by
  intro sp hq s
  cases sp <;> cases hq <;> simp [should_send_audio]

/-- C7: with the queue already at its capacity of 10 and an active
conversation, `speak_text` with `priority=false` returns `false` and
changes nothing (the queue stays at 10); with `priority=true` it first
drains the queue to empty, sets the interrupt event exactly when speech is
currently playing, and inserts the one new (stripped) item, returning
`true`. -/
theorem speak_text_at_capacity :
    ∀ (t : TTSThread) (m : StateManager) (text : String),
      t.max_queue_size = 10 →
      t.text_queue.length = 10 →
      py_strip text ≠ "" →
      m.conversation_active = true →
      speak_text t (some m) text false = (false, t) ∧
      (speak_text t (some m) text true).1 = true ∧
      (speak_text t (some m) text true).2.text_queue = [py_strip text] ∧
      (t.is_speaking = true →
        (speak_text t (some m) text true).2.interrupt_event = true) ∧
      (t.is_speaking = false →
        (speak_text t (some m) text true).2.interrupt_event = t.interrupt_event) := by
  intro t m text h1 h2 h3 h4
  refine ⟨?_, ?_, ?_, ?_, ?_⟩
  · simp [speak_text, h3, h4, h2, h1]
  · cases hsp : t.is_speaking <;>
      simp [speak_text, h3, h4, hsp, interrupt_current_speech, h1]
  · cases hsp : t.is_speaking <;>
      simp [speak_text, h3, h4, hsp, interrupt_current_speech, h1]
  · intro hsp
    simp [speak_text, h3, h4, hsp, interrupt_current_speech, h1]
  · intro hsp
    simp [speak_text, h3, h4, hsp, interrupt_current_speech, h1]

/-- Witness for C7 at a concrete full queue while speaking. -/
theorem speak_text_at_capacity_witness :
    speak_text fullTTS (some listeningState) "hello" false = (false, fullTTS) ∧
    (speak_text fullTTS (some listeningState) "hello" true).1 = true ∧
    (speak_text fullTTS (some listeningState) "hello" true).2.text_queue =
      [py_strip "hello"] ∧
    (speak_text fullTTS (some listeningState) "hello" true).2.interrupt_event =
      true := by
  obtain ⟨a, b, c, d, _⟩ := speak_text_at_capacity fullTTS listeningState "hello"
    (by decide) (by decide) (by decide) (by decide)
  exact ⟨a, b, c, d rfl⟩

/-- Counterexample to C8: a response queued while active is *not*
discarded when the system enters `STANDBY` — after the trace wake, enqueue
"leftover", standby, wake again, one playback-loop iteration, the stale
item has been dequeued and spoken. -/
theorem stale_response_spoken_after_standby :
    (run (staleTrace.take 3)).sm.current_state = .STANDBY ∧
    (run (staleTrace.take 3)).tts.text_queue = ["leftover"] ∧
    (run staleTrace).spoken = ["leftover"] := by
  decide

/-- C8 amended: the playback loop dequeues only while `conversation_active`
is set (so, by the reachability invariant, only in a non-`STANDBY` mode);
but text that was still queued when the system entered `STANDBY` stays in
the queue and is spoken after a later wake-up rather than being
discarded. -/
theorem playback_gated_by_conversation_flag :
    (∀ (sys : Sys) (now : ℤ), sys.sm.conversation_active = false →
      tts_tick sys now = sys) ∧
    (∀ ops : List Op, (run ops).sm.current_state = .STANDBY →
      (run ops).sm.conversation_active = false) := by
  constructor
  · intro sys now h
    unfold tts_tick
    simp [h]
  · exact fun ops => (run_invariants ops).2

/-- Witness for the amended C8: the initial system neither dequeues nor
violates the standby/conversation invariant. -/
theorem playback_gated_by_conversation_flag_witness :
    tts_tick initSys 0 = initSys ∧ (run []).sm.conversation_active = false :=
  ⟨playback_gated_by_conversation_flag.1 initSys 0 rfl,
   playback_gated_by_conversation_flag.2 [] rfl⟩

end TalkyBot
